import Mathlib

/-
Shallow embedding of the splashscreen library
(src/splashscreen/splashscreen.py) together with theorems about its
placement resolver, progress-bar arithmetic and lifecycle state machine.

Modelling conventions:
* Python integers become Int; Python floats on the progress bar become ℚ
  (the program only ever combines them with +, -, max, min and comparisons,
  so rational arithmetic coincides with the intended real arithmetic).
* Python floor division // becomes Int.fdiv.
* Attribute slots that the constructor merely annotates but never assigns
  (self.root, self.label, self.progressbar, self._auto_close_id) are
  modelled as Option fields where none means the attribute is absent;
  reading an absent attribute raises AttributeError in Python.
* Fallible operations return Except PyError; total code returns plain
  values.  GUI rendering calls (grid, update_idletasks, fonts, the actual
  Tk widgets) have no observable effect on the verified quantities and are
  not represented; the state they would mutate is kept abstract.
* Toolkit color validation (winfo_rgb) is an external oracle and is passed
  in as a Bool-valued function.
-/

/-- Python exception classes that the embedded code can raise. -/
inductive PyError where
  | valueError
  | runtimeError
  | attributeError
  | tclError
  deriving DecidableEq

/-- The nine named placement tags, the keys of EnumPlacement
(splashscreen.py lines 18-28). -/
inductive Anchor where
  | BR | BL | TR | TL | C | CL | CR | BC | TC
  deriving DecidableEq

/-- The lambda stored under each key of EnumPlacement
(splashscreen.py lines 18-28): from window size and screen size to (x, y). -/
def anchorPos : Anchor → Int → Int → Int → Int → Int × Int
  | .BR, w, h, sw, sh => (sw - w - 10, sh - h - 50)
  | .BL, _, h, _, sh => (10, sh - h - 50)
  | .TR, w, _, sw, _ => (sw - w - 10, 10)
  | .TL, _, _, _, _ => (10, 10)
  | .C, w, h, sw, sh => (Int.fdiv (sw - w) 2, Int.fdiv (sh - h) 2)
  | .CL, _, h, _, sh => (10, Int.fdiv (sh - h) 2)
  | .CR, w, h, sw, sh => (sw - w - 10, Int.fdiv (sh - h) 2)
  | .BC, w, h, sw, sh => (Int.fdiv (sw - w) 2, sh - h - 50)
  | .TC, w, _, sw, _ => (Int.fdiv (sw - w) 2, 10)

/-- Key lookup in the EnumPlacement dict: some anchor for the nine known
keys, none (a KeyError in Python) otherwise. -/
def EnumPlacement : String → Option Anchor
  | "BR" => some .BR
  | "BL" => some .BL
  | "TR" => some .TR
  | "TL" => some .TL
  | "C" => some .C
  | "CL" => some .CL
  | "CR" => some .CR
  | "BC" => some .BC
  | "TC" => some .TC
  | _ => none

/-- Python str.upper, restricted to the ASCII mapping (the placement tags
are ASCII, where str.upper and per-character uppercasing agree). -/
def pyUpper (s : String) : String :=
  String.mk (s.data.map Char.toUpper)

/-- The argument of Placement.__init__ (line 34): a dict (only the keys
x and y are ever read, each possibly absent), a string, or any value of
another type (the payload records its repr and is never inspected). -/
inductive PlacementInput where
  | dict (x y : Option Int)
  | str (s : String)
  | other (payload : String)
  deriving DecidableEq

/-- What Placement.__init__ stores in self._placement, tagged by
self._is_dict: either the dict or one of the nine anchor lambdas. -/
inductive PlacementResolved where
  | dict (x y : Option Int)
  | anchor (a : Anchor)
  deriving DecidableEq

/-- Placement.__init__ (lines 34-58).  Returns the stored placement and a
flag recording whether logging.warning was called.  Every branch of the
source returns normally, so the embedding is a total function. -/
def placementInit : PlacementInput → PlacementResolved × Bool
  | .dict x y => (.dict x y, false)
  | .str s =>
      match EnumPlacement (pyUpper s) with
      | some a => (.anchor a, false)
      | none => (.anchor .BR, true)
  | .other _ => (.anchor .BR, true)

/-- The data of the geometry string returned by Placement.compute_geometry,
plus the two clamp warnings it may log. -/
structure GeomResult where
  width : Int
  height : Int
  x : Int
  y : Int
  warnedRight : Bool
  warnedDown : Bool
  deriving DecidableEq

/-- Minimum-size floors of compute_geometry (lines 78-88): width and
height after applying min_width, min_height and the title/progress-bar
raises. -/
def flooredSize (reqWidth reqHeight : Int) (hasProgressbar hasTitle : Bool) :
    Int × Int :=
  let minWidth : Int := 200
  let minHeight : Int := 100
  let minHeight := if hasTitle then max minHeight 120 else minHeight
  let minHeight := if hasProgressbar then max minHeight 150 else minHeight
  (max reqWidth minWidth, max reqHeight minHeight)

/-- Position selection of compute_geometry (lines 93-98): dict lookup with
defaults 100, or the stored anchor lambda. -/
def rawPosition (p : PlacementResolved) (w h sw sh : Int) : Int × Int :=
  match p with
  | .dict ox oy => (ox.getD 100, oy.getD 100)
  | .anchor a => anchorPos a w h sw sh

/-- The right-edge clamp of compute_geometry (lines 100-102), with its
warning flag. -/
def clampX (x w sw : Int) : Int × Bool :=
  if x + w > sw then (sw - w, true) else (x, false)

/-- The bottom-edge clamp of compute_geometry (lines 104-106), with its
warning flag. -/
def clampY (y h sh : Int) : Int × Bool :=
  if y + h + 40 > sh then (sh - h - 40, true) else (y, false)

/-- Placement.compute_geometry (lines 61-108).  The measured size
(winfo_reqwidth, winfo_reqheight) and screen size (winfo_screenwidth,
winfo_screenheight) are inputs; the result carries the data of the
returned geometry string. -/
def computeGeometry (p : PlacementResolved) (reqWidth reqHeight sw sh : Int)
    (hasProgressbar hasTitle : Bool) : GeomResult :=
  let wh := flooredSize reqWidth reqHeight hasProgressbar hasTitle
  let xy := rawPosition p wh.1 wh.2 sw sh
  let xc := clampX xy.1 wh.1 sw
  let yc := clampY xy.2 wh.2 sh
  { width := wh.1, height := wh.2, x := xc.1, y := yc.1,
    warnedRight := xc.2, warnedDown := yc.2 }

/-- The geometry string itself, line 108. -/
def geometryString (r : GeomResult) : String :=
  toString r.width ++ ("x") ++ toString r.height ++ ("+") ++ toString r.x
    ++ ("+") ++ toString r.y

/-- Written after the words of claim C4 (the spec description of the
explicit-coordinate path), to be compared with computeGeometry: floor the
measured size first, take x and y with default 100, then clamp each
coordinate. -/
def dictGeometryRef (ox oy : Option Int) (reqWidth reqHeight sw sh : Int)
    (hasProgressbar hasTitle : Bool) : GeomResult :=
  let width := max reqWidth 200
  let hFloor : Int := if hasProgressbar then 150 else if hasTitle then 120 else 100
  let height := max reqHeight hFloor
  let x0 := ox.getD 100
  let y0 := oy.getD 100
  let xc := if x0 + width > sw then ((sw - width : Int), true) else (x0, false)
  let yc := if y0 + height + 40 > sh then ((sh - height - 40 : Int), true) else (y0, false)
  { width := width, height := height, x := xc.1, y := yc.1,
    warnedRight := xc.2, warnedDown := yc.2 }

/-- The state of the ttk Progressbar widget that the code reads and
writes: its value and its configured maximum. -/
structure ProgressBar where
  value : ℚ
  maximum : ℚ
  deriving DecidableEq

/-- The arithmetic of SplashScreen.step_progressbar (lines 679-687) on the
widget: clamp to maximum - 0.001 when the step would reach the maximum,
otherwise add the step (in the else branch value + step is below the
maximum, so the modular wrap of ttk step never engages). -/
def stepPB (stepCount : ℚ) (pb : ProgressBar) : ProgressBar :=
  if pb.value + stepCount ≥ pb.maximum then
    { value := pb.maximum - 1/1000, maximum := pb.maximum }
  else
    { value := pb.value + stepCount, maximum := pb.maximum }

/-- The arithmetic of SplashScreen.set_progress (lines 704-706) on the
widget. -/
def setPB (v : ℚ) (pb : ProgressBar) : ProgressBar :=
  { value := max 0 (min v (pb.maximum - 1/1000)), maximum := pb.maximum }

/-- A progress mutation issued by the host application. -/
inductive PBOp where
  | step (amt : ℚ)
  | set (v : ℚ)

/-- Dispatch of one progress mutation. -/
def applyPBOp : PBOp → ProgressBar → ProgressBar
  | .step a, pb => stepPB a pb
  | .set v, pb => setPB v pb

/-- A sequence of progress mutations, applied in order. -/
def runPBOps (ops : List PBOp) (pb : ProgressBar) : ProgressBar :=
  ops.foldl (fun p op => applyPBOp op p) pb

/-- The progressbar argument of the constructor: the dict with keys max
and mode (a missing max makes the widget default to 100). -/
structure PBSpec where
  maxVal : Option ℚ
  indeterminate : Bool
  deriving DecidableEq

/-- The constructor arguments of SplashScreen that the verified operations
observe (lines 114-126). -/
structure SplashConfig where
  message : String
  closeAfter : Option ℚ
  placement : PlacementInput
  hasMainwindow : Bool
  closeButton : Bool
  title : String
  progressbar : Option PBSpec
  blockMain : Bool
  bg : String
  fg : String
  deriving DecidableEq

/-- The observable state of a SplashScreen object.  Option fields model
runtime attributes that may be absent (annotated in __init__ lines 167-176
but only assigned inside _create_window); the Bool flags at the end record
the externally visible effects of teardown and the callbacks scheduled on
a parent window queue. -/
structure SplashState where
  message : String
  closeAfter : Option ℚ
  placement : PlacementResolved
  placementWarned : Bool
  titleText : String
  progressbarSpec : Option PBSpec
  blockMain : Bool
  hasRootwindow : Bool
  isStandalone : Bool
  root : Option Unit
  ownsRoot : Bool
  isShown : Bool
  labelAssigned : Bool
  progressbar : Option ProgressBar
  autoCloseId : Option String
  bg : String
  timerCancelled : Bool
  pbStopped : Bool
  parentReenabled : Bool
  loopQuit : Bool
  destroyed : Bool
  closeErrorLogged : Bool
  pendingDoClose : Nat
  pendingDoUpdate : Nat
  deriving DecidableEq

/-- The state produced by SplashScreen.__init__ (lines 143-176) after its
non-empty-message check: configuration stored, _is_shown and _owns_root
set to False, every other runtime attribute left unassigned.  The _bg
StringVar is only created at show time from the configured color; its
current string is tracked in bg. -/
def initState (cfg : SplashConfig) : SplashState :=
  { message := cfg.message
    closeAfter := cfg.closeAfter
    placement := (placementInit cfg.placement).1
    placementWarned := (placementInit cfg.placement).2
    titleText := cfg.title
    progressbarSpec := cfg.progressbar
    blockMain := cfg.blockMain
    hasRootwindow := cfg.hasMainwindow
    isStandalone := !cfg.hasMainwindow
    root := none
    ownsRoot := false
    isShown := false
    labelAssigned := false
    progressbar := none
    autoCloseId := none
    bg := cfg.bg
    timerCancelled := false
    pbStopped := false
    parentReenabled := false
    loopQuit := false
    destroyed := false
    closeErrorLogged := false
    pendingDoClose := 0
    pendingDoUpdate := 0 }

/-- SplashScreen.__init__ (line 143): an empty message is a hard
construction failure (ValueError). -/
def splashInit (cfg : SplashConfig) : Except PyError SplashState :=
  if cfg.message = ("") then .error .valueError else .ok (initState cfg)

/-- SplashScreen._create_window (lines 203-365), restricted to the state
it assigns: the root window (a fresh Tk only when standalone and no
default root exists), the label, the progress bar widget when a spec was
given (value 0, maximum from the spec or 100), and the auto-close timer
when close_after is set and non-zero (Python truthiness of the float). -/
def createWindow (defaultRootExists : Bool) (s : SplashState) : SplashState :=
  { s with
    root := some ()
    ownsRoot := if s.hasRootwindow then false
                else if defaultRootExists then false else true
    labelAssigned := true
    progressbar := s.progressbarSpec.map
      (fun spec => { value := 0, maximum := spec.maxVal.getD 100 })
    autoCloseId := if s.closeAfter.getD 0 ≠ 0 then some ("auto-close") else none
    destroyed := false }

/-- SplashScreen.show (lines 179-200): a warned no-op when already shown,
otherwise window creation followed by _is_shown = True.  Entering the
blocking mainloop suspends the caller and is not part of the state. -/
def showSplash (defaultRootExists : Bool) (s : SplashState) : SplashState :=
  if s.isShown then s
  else { createWindow defaultRootExists s with isShown := true }

/-- Which teardown steps raise a toolkit exception when attempted.  The
source guards three of the five steps with their own try/except blocks;
whether the guard exists is a property of the code, not of this record. -/
structure Failures where
  cancelFails : Bool
  stopFails : Bool
  reenableFails : Bool
  quitFails : Bool
  destroyFails : Bool
  deriving DecidableEq

/-- No teardown step raises. -/
def noFailures : Failures :=
  { cancelFails := false, stopFails := false, reenableFails := false,
    quitFails := false, destroyFails := false }

/-- Teardown step 1 (lines 729-732): cancel a scheduled auto-close timer.
hasattr is true exactly when the attribute was assigned; after_cancel is
followed by resetting the id to the empty string.  This step has no inner
try/except in the source. -/
def stepCancelTimer (s : SplashState) : SplashState :=
  if s.autoCloseId.isSome then
    { s with timerCancelled := true, autoCloseId := some ("") }
  else s

/-- Teardown step 2 (lines 734-740): stop the progress bar, guarded by its
own try/except, so a failure is swallowed and only skips this step. -/
def stepStopPB (fail : Bool) (s : SplashState) : SplashState :=
  if s.progressbarSpec.isSome && !fail then { s with pbStopped := true } else s

/-- Teardown step 3 (lines 742-749): re-enable a blocked parent window,
guarded by its own try/except. -/
def stepReenableParent (fail : Bool) (s : SplashState) : SplashState :=
  if s.blockMain && s.hasRootwindow && !fail then
    { s with parentReenabled := true }
  else s

/-- Teardown step 4 (lines 751-757): quit an owned mainloop, guarded by
its own try/except. -/
def stepQuitLoop (fail : Bool) (s : SplashState) : SplashState :=
  if s.isStandalone && s.ownsRoot && !fail then { s with loopQuit := true }
  else s

/-- Teardown step 5 (lines 759-763): destroy the window, set root to None
and leave the Shown state.  A failure of destroy itself is caught only by
the outer except of do_close, which logs and returns. -/
def stepDestroy (fail : Bool) (s : SplashState) : SplashState :=
  if s.root.isSome then
    if fail then { s with closeErrorLogged := true }
    else { s with destroyed := true, root := none, isShown := false }
  else s

/-- Teardown steps 1-4 in source order, step 1 already known not to
raise. -/
def teardownChain (f : Failures) (s : SplashState) : SplashState :=
  stepQuitLoop f.quitFails
    (stepReenableParent f.reenableFails
      (stepStopPB f.stopFails (stepCancelTimer s)))

/-- The do_close worker (lines 721-766).  Entered with root = None it
raises ValueError before its try block.  Inside the single outer try, a
raise from the unguarded after_cancel call (step 1) jumps to the outer
except, which logs a warning and returns with every later step skipped;
the three individually guarded steps cannot abort the sequence; a raise
from destroy is likewise caught by the outer except. -/
def doClose (f : Failures) (s : SplashState) : Except PyError SplashState :=
  if s.root.isNone then .error .valueError
  else if s.autoCloseId.isSome && f.cancelFails then
    .ok { s with closeErrorLogged := true }
  else .ok (stepDestroy f.destroyFails (teardownChain f s))

/-- SplashScreen.close (lines 710-772): early return unless shown with a
live root; with a positive delay only schedule do_close on the timer
queue; otherwise run do_close synchronously and propagate whatever it
raises. -/
def closeSplash (delay : ℚ) (f : Failures) (s : SplashState) :
    Except PyError SplashState :=
  if !s.isShown || s.root.isNone then .ok s
  else if delay > 0 then .ok { s with pendingDoClose := s.pendingDoClose + 1 }
  else doClose f s

/-- The do_update worker of update_message (lines 609-629): ValueError on
a None root, otherwise replace or append the label text.  The re-measure
and re-position calls mutate only widget geometry. -/
def doUpdateMessage (newText : String) (append : Bool) (s : SplashState) :
    Except PyError SplashState :=
  if s.root.isNone then .error .valueError
  else .ok { s with message := if append then s.message ++ newText else newText }

/-- SplashScreen.update_message (lines 597-635).  The guard raises
RuntimeError when not shown; the or-condition short-circuits, so the
label attribute is only read when shown (when it is always assigned and a
widget is always truthy).  With a parent window the worker is scheduled
with delay 0 instead of run synchronously. -/
def updateMessage (newText : String) (append : Bool) (s : SplashState) :
    Except PyError SplashState :=
  if !s.isShown then .error .runtimeError
  else if !s.labelAssigned then .error .attributeError
  else if s.hasRootwindow then
    .ok { s with pendingDoUpdate := s.pendingDoUpdate + 1 }
  else doUpdateMessage newText append s

/-- The value handed to _normalize_color: a string, a tuple of three ints,
a 3-tuple with a non-int entry, or a value of any other shape. -/
inductive ColorInput where
  | str (s : String)
  | triple (r g b : Int)
  | badTuple
  | otherVal
  deriving DecidableEq

/-- SplashScreen._normalize_color (lines 405-445), with the toolkit color
table abstracted into isValid.  Result: the normalized color string plus
a flag recording whether logging.warning was called.  On a tuple of three
ints each within 0..255 the source builds the hex string with the format
specifier 02x followed by a space inside the braces; Python rejects that
specifier, so this branch raises ValueError.  An out-of-range or non-int
tuple and every other type fall back to the default silently. -/
def normalizeColorValue (isValid : String → Bool) (value : ColorInput)
    (default : String) : Except PyError (String × Bool) :=
  match value with
  | .str s => if isValid s then .ok (s, false) else .ok (default, true)
  | .triple r g b =>
      if 0 ≤ r ∧ r ≤ 255 ∧ 0 ≤ g ∧ g ≤ 255 ∧ 0 ≤ b ∧ b ≤ 255 then
        .error .valueError
      else .ok (default, false)
  | .badTuple => .ok (default, false)
  | .otherVal => .ok (default, false)

/-- SplashScreen.update_color (lines 638-664): RuntimeError when not
shown; normalization against the current background as default (raising
what _normalize_color raises); then the do_update worker, scheduled when
a parent window exists, otherwise run synchronously with its ValueError
guard on a None root. -/
def updateColor (isValid : String → Bool) (newColor : ColorInput)
    (s : SplashState) : Except PyError SplashState :=
  if !s.isShown then .error .runtimeError
  else
    match normalizeColorValue isValid newColor s.bg with
    | .error e => .error e
    | .ok pr =>
        if s.hasRootwindow then
          .ok { s with pendingDoUpdate := s.pendingDoUpdate + 1 }
        else if s.root.isNone then .error .valueError
        else .ok { s with bg := pr.1 }

/-- SplashScreen.step_progressbar (lines 667-689).  Reading
self.progressbar raises AttributeError whenever the attribute was never
assigned (the constructor only annotates it), so the warn-and-return
branch, written for a missing bar, is unreachable: an assigned widget
object is always truthy.  On a destroyed widget cget raises TclError with
no guard. -/
def stepProgressbar (stepCount : ℚ) (s : SplashState) :
    Except PyError SplashState :=
  match s.progressbar with
  | none => .error .attributeError
  | some pb =>
      if s.destroyed then .error .tclError
      else .ok { s with progressbar := some (stepPB stepCount pb) }

/-- SplashScreen.set_progress (lines 692-707), with the same attribute
behavior as step_progressbar. -/
def setProgress (v : ℚ) (s : SplashState) : Except PyError SplashState :=
  match s.progressbar with
  | none => .error .attributeError
  | some pb =>
      if s.destroyed then .error .tclError
      else .ok { s with progressbar := some (setPB v pb) }

/-- A concrete configuration used to instantiate the general theorems:
standalone, no progress bar, no auto-close. -/
def demoConfig : SplashConfig :=
  { message := ("Loading") , closeAfter := none, placement := .str ("BR"),
    hasMainwindow := false, closeButton := false, title := (""),
    progressbar := none, blockMain := false, bg := ("#00538F"),
    fg := ("white") }

theorem fdiv_two_eq (t : Int) : Int.fdiv t 2 = t / 2 :=
  Int.fdiv_eq_ediv t (by norm_num)

theorem anchorPos_nonneg (a : Anchor) (w h sw sh : Int)
    (hw : w + 10 ≤ sw) (hh : h + 50 ≤ sh) :
    0 ≤ (anchorPos a w h sw sh).1 ∧ 0 ≤ (anchorPos a w h sw sh).2 := by
  cases a <;> constructor <;> simp [anchorPos, fdiv_two_eq] <;> omega

theorem clampX_right (x w sw : Int) : (clampX x w sw).1 + w ≤ sw := by
  unfold clampX; split <;> simp <;> omega

theorem clampX_nonneg (x w sw : Int) (hx : 0 ≤ x) (hw : w ≤ sw) :
    0 ≤ (clampX x w sw).1 := by
  unfold clampX; split <;> simp <;> omega

theorem clampY_bottom (y h sh : Int) : (clampY y h sh).1 + h + 40 ≤ sh := by
  unfold clampY; split <;> simp <;> omega

theorem clampY_nonneg (y h sh : Int) (hy : 0 ≤ y) (hh : h + 40 ≤ sh) :
    0 ≤ (clampY y h sh).1 := by
  unfold clampY; split <;> simp <;> omega

/-- C1 (amended): for every one of the nine named placement tags, the
resolved position keeps the window inside [0, screen_width] x
[0, screen_height - 40] provided the floored window size also leaves room
for the fixed anchor margins, width + 10 <= screen_width and
height + 50 <= screen_height.  (The claim as frozen, which assumes only
size <= screen, fails: see the counterexample.) -/
theorem named_anchor_geometry_in_bounds (a : Anchor) (reqW reqH sw sh : Int)
    (hpb ht : Bool)
    (hw : (computeGeometry (.anchor a) reqW reqH sw sh hpb ht).width + 10 ≤ sw)
    (hh : (computeGeometry (.anchor a) reqW reqH sw sh hpb ht).height + 50 ≤ sh) :
    0 ≤ (computeGeometry (.anchor a) reqW reqH sw sh hpb ht).x ∧
    0 ≤ (computeGeometry (.anchor a) reqW reqH sw sh hpb ht).y ∧
    (computeGeometry (.anchor a) reqW reqH sw sh hpb ht).x +
      (computeGeometry (.anchor a) reqW reqH sw sh hpb ht).width ≤ sw ∧
    (computeGeometry (.anchor a) reqW reqH sw sh hpb ht).y +
      (computeGeometry (.anchor a) reqW reqH sw sh hpb ht).height + 40 ≤ sh := by
  have hw2 : (flooredSize reqW reqH hpb ht).1 + 10 ≤ sw := hw
  have hh2 : (flooredSize reqW reqH hpb ht).2 + 50 ≤ sh := hh
  have h0 := anchorPos_nonneg a (flooredSize reqW reqH hpb ht).1
    (flooredSize reqW reqH hpb ht).2 sw sh hw2 hh2
  exact ⟨clampX_nonneg _ _ _ h0.1 (by omega),
    clampY_nonneg _ _ _ h0.2 (by omega),
    clampX_right _ _ _, clampY_bottom _ _ _⟩

/-- C1 witness: a concrete in-bounds instance for the BR tag on a
1920 x 1080 screen. -/
theorem named_anchor_geometry_in_bounds_witness :
    ((computeGeometry (.anchor .BR) 300 200 1920 1080 false false).width + 10 ≤ 1920) ∧
    ((computeGeometry (.anchor .BR) 300 200 1920 1080 false false).height + 50 ≤ 1080) ∧
    (0 ≤ (computeGeometry (.anchor .BR) 300 200 1920 1080 false false).x ∧
     0 ≤ (computeGeometry (.anchor .BR) 300 200 1920 1080 false false).y ∧
     (computeGeometry (.anchor .BR) 300 200 1920 1080 false false).x +
       (computeGeometry (.anchor .BR) 300 200 1920 1080 false false).width ≤ 1920 ∧
     (computeGeometry (.anchor .BR) 300 200 1920 1080 false false).y +
       (computeGeometry (.anchor .BR) 300 200 1920 1080 false false).height + 40 ≤ 1080) :=
  ⟨by decide, by decide,
    named_anchor_geometry_in_bounds .BR 300 200 1920 1080 false false
      (by decide) (by decide)⟩

/-- C1 counterexample: with the BR tag, a window whose floored size is
exactly the screen size (200 x 100 on a 200 x 200 screen) satisfies the
size <= screen hypothesis of the claim yet resolves to x = -10 < 0, so
the claim as frozen is false. -/
theorem named_anchor_geometry_claim_cex :
    ¬ ((computeGeometry (.anchor .BR) 200 100 200 200 false false).width ≤ 200 →
       (computeGeometry (.anchor .BR) 200 100 200 200 false false).height ≤ 200 →
       0 ≤ (computeGeometry (.anchor .BR) 200 100 200 200 false false).x ∧
       0 ≤ (computeGeometry (.anchor .BR) 200 100 200 200 false false).y ∧
       (computeGeometry (.anchor .BR) 200 100 200 200 false false).x +
         (computeGeometry (.anchor .BR) 200 100 200 200 false false).width ≤ 200 ∧
       (computeGeometry (.anchor .BR) 200 100 200 200 false false).y +
         (computeGeometry (.anchor .BR) 200 100 200 200 false false).height + 40 ≤ 200) := by
  decide

/-- C4: the explicit-coordinate path of compute_geometry agrees with the
step-by-step description of the claim (floors first, defaults 100, then
the two clamps), and the placement x = 100, y = 444 resolves to exactly
(100, 444) whenever no clamp is needed. -/
theorem compute_geometry_dict_follows_spec (ox oy : Option Int)
    (reqW reqH sw sh : Int) (hpb ht : Bool) :
    computeGeometry (.dict ox oy) reqW reqH sw sh hpb ht
      = dictGeometryRef ox oy reqW reqH sw sh hpb ht
    ∧ (100 + (computeGeometry (.dict (some 100) (some 444)) reqW reqH sw sh hpb ht).width ≤ sw →
       444 + (computeGeometry (.dict (some 100) (some 444)) reqW reqH sw sh hpb ht).height + 40 ≤ sh →
       (computeGeometry (.dict (some 100) (some 444)) reqW reqH sw sh hpb ht).x = 100 ∧
       (computeGeometry (.dict (some 100) (some 444)) reqW reqH sw sh hpb ht).y = 444) := by
  constructor
  · cases hpb <;> cases ht <;>
      simp [computeGeometry, dictGeometryRef, flooredSize, rawPosition,
        clampX, clampY,
        show max (100 : Int) 120 = 120 by decide,
        show max (100 : Int) 150 = 150 by decide,
        show max (max (100 : Int) 120) 150 = 150 by decide]
  · intro h1 h2
    have h1b : 100 + (flooredSize reqW reqH hpb ht).1 ≤ sw := h1
    have h2b : 444 + (flooredSize reqW reqH hpb ht).2 + 40 ≤ sh := h2
    constructor
    · show (clampX 100 (flooredSize reqW reqH hpb ht).1 sw).1 = 100
      unfold clampX; split <;> simp <;> omega
    · show (clampY 444 (flooredSize reqW reqH hpb ht).2 sh).1 = 444
      unfold clampY; split <;> simp <;> omega

/-- C4 witness: a concrete no-clamp instance of the (100, 444) placement
on a 1920 x 1080 screen. -/
theorem compute_geometry_dict_follows_spec_witness :
    (computeGeometry (.dict (some 100) (some 444)) 300 200 1920 1080 false false).x = 100 ∧
    (computeGeometry (.dict (some 100) (some 444)) 300 200 1920 1080 false false).y = 444 :=
  (compute_geometry_dict_follows_spec (some 100) (some 444)
    300 200 1920 1080 false false).2 (by decide) (by decide)

/-- C9: a string tag outside the nine EnumPlacement keys makes
Placement.__init__ log a warning and store the BR anchor, so the resolved
geometry coincides with the geometry of the BR tag at every window and
screen size. -/
theorem unknown_tag_defaults_to_BR (s : String)
    (h : EnumPlacement (pyUpper s) = none) :
    placementInit (.str s) = (PlacementResolved.anchor Anchor.BR, true)
    ∧ ∀ (w h2 sw sh : Int) (hpb ht : Bool),
        computeGeometry (placementInit (.str s)).1 w h2 sw sh hpb ht
          = computeGeometry (placementInit (.str ("BR"))).1 w h2 sw sh hpb ht := by
  have h1 : placementInit (.str s) = (PlacementResolved.anchor Anchor.BR, true) := by
    simp [placementInit, h]
  exact ⟨h1, fun w h2b sw sh hpb ht => by rw [h1]; rfl⟩

/-- C9 witness: the tag ZZ is unknown, warns, and resolves like BR. -/
theorem unknown_tag_defaults_to_BR_witness :
    EnumPlacement (pyUpper ("ZZ")) = none
    ∧ placementInit (.str ("ZZ")) = (PlacementResolved.anchor Anchor.BR, true)
    ∧ computeGeometry (placementInit (.str ("ZZ"))).1 300 200 1920 1080 false false
        = computeGeometry (placementInit (.str ("BR"))).1 300 200 1920 1080 false false :=
  ⟨by decide,
   (unknown_tag_defaults_to_BR ("ZZ") (by decide)).1,
   (unknown_tag_defaults_to_BR ("ZZ") (by decide)).2 300 200 1920 1080 false false⟩

/-- C10: an argument that is neither a string nor a dict takes the final
else branch of Placement.__init__, which warns and stores the BR anchor;
every branch returns normally, and the result is identical to the result
for an unknown string tag. -/
theorem placement_other_type_defaults (payload : String) :
    placementInit (.other payload) = (PlacementResolved.anchor Anchor.BR, true)
    ∧ (placementInit (.other payload)).1 = (placementInit (.str ("BR"))).1
    ∧ ∀ t : String, EnumPlacement (pyUpper t) = none →
        placementInit (.other payload) = placementInit (.str t) := by
  refine ⟨rfl, rfl, fun t ht => ?_⟩
  simp [placementInit, ht]

/-- C10 witness: the non-string payload 42 resolves exactly like the
unknown tag ZZ. -/
theorem placement_other_type_defaults_witness :
    placementInit (.other ("42")) = placementInit (.str ("ZZ")) :=
  (placement_other_type_defaults ("42")).2.2 ("ZZ") (by decide)

theorem stepPB_eq_of_ge (a : ℚ) (pb : ProgressBar)
    (hc : pb.value + a ≥ pb.maximum) :
    stepPB a pb = { value := pb.maximum - 1/1000, maximum := pb.maximum } := by
  unfold stepPB; rw [if_pos hc]

theorem stepPB_eq_of_lt (a : ℚ) (pb : ProgressBar)
    (hc : ¬ pb.value + a ≥ pb.maximum) :
    stepPB a pb = { value := pb.value + a, maximum := pb.maximum } := by
  unfold stepPB; rw [if_neg hc]

theorem applyPBOp_lt (op : PBOp) (pb : ProgressBar) (h0 : 0 < pb.maximum)
    (hv : pb.value < pb.maximum) :
    (applyPBOp op pb).value < pb.maximum
    ∧ (applyPBOp op pb).maximum = pb.maximum := by
  cases op with
  | step a =>
      show (stepPB a pb).value < pb.maximum ∧ (stepPB a pb).maximum = pb.maximum
      by_cases hc : pb.value + a ≥ pb.maximum
      · rw [stepPB_eq_of_ge a pb hc]
        exact ⟨sub_lt_self _ (by norm_num), rfl⟩
      · rw [stepPB_eq_of_lt a pb hc]
        exact ⟨lt_of_not_ge hc, rfl⟩
  | set v =>
      show (setPB v pb).value < pb.maximum ∧ (setPB v pb).maximum = pb.maximum
      unfold setPB
      exact ⟨max_lt h0 (lt_of_le_of_lt (min_le_right _ _)
        (sub_lt_self _ (by norm_num))), rfl⟩

theorem runPBOps_lt (ops : List PBOp) : ∀ pb : ProgressBar,
    0 < pb.maximum → pb.value < pb.maximum →
    (runPBOps ops pb).value < pb.maximum
    ∧ (runPBOps ops pb).maximum = pb.maximum := by
  induction ops with
  | nil => exact fun pb h0 hv => ⟨hv, rfl⟩
  | cons op rest ih =>
      intro pb h0 hv
      have h1 := applyPBOp_lt op pb h0 hv
      have h2 := ih (applyPBOp op pb) (by rw [h1.2]; exact h0)
        (by rw [h1.2]; exact h1.1)
      have e1 : (runPBOps (op :: rest) pb).value
          = (runPBOps rest (applyPBOp op pb)).value := rfl
      have e2 : (runPBOps (op :: rest) pb).maximum
          = (runPBOps rest (applyPBOp op pb)).maximum := rfl
      rw [e1, e2, h2.2, h1.2]
      rw [h1.2] at h2
      exact ⟨h2.1, rfl⟩

/-- C3: on a determinate bar of maximum M > 0, any sequence of
step_progressbar and set_progress mutations keeps the reported value
strictly below M (step adds its amount, clamping to M - 0.001 when the
sum would reach M; set clamps into [0, M - 0.001]); stepping by 1 five
times from 0 with M = 5 yields the value sequence 1, 2, 3, 4, 4.999. -/
theorem progress_value_below_maximum (M : ℚ) (ops : List PBOp) (hM : 0 < M) :
    (runPBOps ops { value := 0, maximum := M }).value < M
    ∧ (runPBOps ops { value := 0, maximum := M }).maximum = M
    ∧ (runPBOps [PBOp.step 1] { value := 0, maximum := 5 }).value = 1
    ∧ (runPBOps [PBOp.step 1, PBOp.step 1]
        { value := 0, maximum := 5 }).value = 2
    ∧ (runPBOps [PBOp.step 1, PBOp.step 1, PBOp.step 1]
        { value := 0, maximum := 5 }).value = 3
    ∧ (runPBOps [PBOp.step 1, PBOp.step 1, PBOp.step 1, PBOp.step 1]
        { value := 0, maximum := 5 }).value = 4
    ∧ (runPBOps [PBOp.step 1, PBOp.step 1, PBOp.step 1, PBOp.step 1, PBOp.step 1]
        { value := 0, maximum := 5 }).value = 4999/1000 := by
  have hg := runPBOps_lt ops { value := 0, maximum := M } hM hM
  refine ⟨hg.1, hg.2, ?_, ?_, ?_, ?_, ?_⟩ <;>
    norm_num [runPBOps, List.foldl, applyPBOp, stepPB]

/-- C3 witness: the invariant instantiated at maximum 5 with the
five-step sequence itself. -/
theorem progress_value_below_maximum_witness :
    (0:ℚ) < 5
    ∧ (runPBOps [PBOp.step 1, PBOp.step 1, PBOp.step 1, PBOp.step 1, PBOp.step 1]
        { value := 0, maximum := (5:ℚ) }).value < 5 :=
  ⟨by norm_num,
   (progress_value_below_maximum 5
     [PBOp.step 1, PBOp.step 1, PBOp.step 1, PBOp.step 1, PBOp.step 1]
     (by norm_num)).1⟩

theorem stepCancelTimer_eq (s : SplashState) :
    stepCancelTimer s = { s with
      timerCancelled := s.autoCloseId.isSome || s.timerCancelled,
      autoCloseId := if s.autoCloseId.isSome then some ("") else s.autoCloseId } := by
  unfold stepCancelTimer
  cases h : s.autoCloseId.isSome <;> simp [h]

theorem stepStopPB_eq (fail : Bool) (s : SplashState) :
    stepStopPB fail s = { s with
      pbStopped := (s.progressbarSpec.isSome && !fail) || s.pbStopped } := by
  unfold stepStopPB
  cases h : s.progressbarSpec.isSome && !fail <;> simp [h]

theorem stepReenableParent_eq (fail : Bool) (s : SplashState) :
    stepReenableParent fail s = { s with
      parentReenabled := (s.blockMain && s.hasRootwindow && !fail) || s.parentReenabled } := by
  unfold stepReenableParent
  cases h : s.blockMain && s.hasRootwindow && !fail <;> simp [h]

theorem stepQuitLoop_eq (fail : Bool) (s : SplashState) :
    stepQuitLoop fail s = { s with
      loopQuit := (s.isStandalone && s.ownsRoot && !fail) || s.loopQuit } := by
  unfold stepQuitLoop
  cases h : s.isStandalone && s.ownsRoot && !fail <;> simp [h]

theorem teardownChain_eq (f : Failures) (s : SplashState) :
    teardownChain f s = { s with
      timerCancelled := s.autoCloseId.isSome || s.timerCancelled,
      autoCloseId := if s.autoCloseId.isSome then some ("") else s.autoCloseId,
      pbStopped := (s.progressbarSpec.isSome && !f.stopFails) || s.pbStopped,
      parentReenabled := (s.blockMain && s.hasRootwindow && !f.reenableFails) || s.parentReenabled,
      loopQuit := (s.isStandalone && s.ownsRoot && !f.quitFails) || s.loopQuit } := by
  unfold teardownChain
  rw [stepCancelTimer_eq, stepStopPB_eq, stepReenableParent_eq, stepQuitLoop_eq]

theorem doClose_success_eq (f : Failures) (s : SplashState)
    (hroot : s.root = some ()) (hc : f.cancelFails = false)
    (hd : f.destroyFails = false) :
    doClose f s = Except.ok { teardownChain f s with
      destroyed := true, root := none, isShown := false } := by
  have h1 : s.root.isNone = false := by rw [hroot]; rfl
  have h2 : (s.autoCloseId.isSome && f.cancelFails) = false := by
    rw [hc, Bool.and_false]
  have h3 : (teardownChain f s).root = some () := by
    rw [teardownChain_eq]; exact hroot
  simp [doClose, stepDestroy, h1, h2, h3, hd]

/-- A shown standalone controller with a pending auto-close timer, a
progress bar and an owned mainloop: every teardown step of do_close is
applicable except the parent re-enable. -/
def closeCexState : SplashState :=
  { message := ("Loading"), closeAfter := some 2,
    placement := PlacementResolved.anchor Anchor.BR, placementWarned := false,
    titleText := (""), progressbarSpec := some { maxVal := some 5, indeterminate := true },
    blockMain := false, hasRootwindow := false, isStandalone := true,
    root := some (), ownsRoot := true, isShown := true, labelAssigned := true,
    progressbar := some { value := 0, maximum := 5 },
    autoCloseId := some ("after-42"), bg := ("#00538F"),
    timerCancelled := false, pbStopped := false, parentReenabled := false,
    loopQuit := false, destroyed := false, closeErrorLogged := false,
    pendingDoClose := 0, pendingDoUpdate := 0 }

/-- Only the unguarded auto-close-timer cancel step raises. -/
def onlyCancelFails : Failures :=
  { cancelFails := true, stopFails := false, reenableFails := false,
    quitFails := false, destroyFails := false }

/-- C2 counterexample: when the single failing step is the auto-close
timer cancel, the outer except of do_close catches the exception and
returns: the progress bar is not stopped, the owned loop is not quit, the
window is not destroyed and the state stays Shown, refuting the claim
that any single failing step still lets all subsequent steps run. -/
theorem teardown_cancel_failure_skips_rest :
    doClose onlyCancelFails closeCexState
      = Except.ok { closeCexState with closeErrorLogged := true }
    ∧ ({ closeCexState with closeErrorLogged := true } : SplashState).destroyed = false
    ∧ ({ closeCexState with closeErrorLogged := true } : SplashState).isShown = true
    ∧ ({ closeCexState with closeErrorLogged := true } : SplashState).pbStopped = false
    ∧ ({ closeCexState with closeErrorLogged := true } : SplashState).loopQuit = false :=
  ⟨rfl, rfl, rfl, rfl, rfl⟩

/-- C2 (amended): teardown is fault-tolerant for the individually guarded
steps: as long as the timer-cancel step does not raise (and destroy
itself succeeds), any combination of failures among stopping the progress
bar, re-enabling the parent and quitting the owned loop still lets every
subsequent step run, the window is destroyed and the state leaves Shown;
a timer-cancel failure is logged and never propagated, but aborts the
remaining steps (see the counterexample). -/
theorem teardown_guarded_steps_tolerant (s : SplashState) (f : Failures)
    (hroot : s.root = some ()) (hc : f.cancelFails = false)
    (hd : f.destroyFails = false) :
    ∃ t, doClose f s = Except.ok t
      ∧ t.destroyed = true ∧ t.isShown = false ∧ t.root = none
      ∧ (s.autoCloseId.isSome = true → t.timerCancelled = true)
      ∧ (s.progressbarSpec.isSome = true → f.stopFails = false →
          t.pbStopped = true)
      ∧ (s.blockMain = true → s.hasRootwindow = true →
          f.reenableFails = false → t.parentReenabled = true)
      ∧ (s.isStandalone = true → s.ownsRoot = true →
          f.quitFails = false → t.loopQuit = true) := by
  refine ⟨_, doClose_success_eq f s hroot hc hd, rfl, rfl, rfl, ?_, ?_, ?_, ?_⟩
  · intro h
    show (teardownChain f s).timerCancelled = true
    rw [teardownChain_eq]
    simp [h]
  · intro h hf
    show (teardownChain f s).pbStopped = true
    rw [teardownChain_eq]
    simp [h, hf]
  · intro h1 h2 hf
    show (teardownChain f s).parentReenabled = true
    rw [teardownChain_eq]
    simp [h1, h2, hf]
  · intro h1 h2 hf
    show (teardownChain f s).loopQuit = true
    rw [teardownChain_eq]
    simp [h1, h2, hf]

/-- C2 witness: full successful teardown of the concrete shown controller
with no failing step. -/
theorem teardown_guarded_steps_tolerant_witness :
    ∃ t, doClose noFailures closeCexState = Except.ok t
      ∧ t.destroyed = true ∧ t.isShown = false ∧ t.root = none
      ∧ (closeCexState.autoCloseId.isSome = true → t.timerCancelled = true)
      ∧ (closeCexState.progressbarSpec.isSome = true →
          noFailures.stopFails = false → t.pbStopped = true)
      ∧ (closeCexState.blockMain = true → closeCexState.hasRootwindow = true →
          noFailures.reenableFails = false → t.parentReenabled = true)
      ∧ (closeCexState.isStandalone = true → closeCexState.ownsRoot = true →
          noFailures.quitFails = false → t.loopQuit = true) :=
  teardown_guarded_steps_tolerant closeCexState noFailures rfl rfl rfl

theorem option_unit_eq_some (o : Option Unit) (h : o.isNone = false) :
    o = some () := by
  cases o with
  | none => simp at h
  | some u => cases u; rfl

/-- C5: close is a no-op outside the Shown state: whenever the controller
is not shown (never shown, or shown and then closed), close returns with
the state entirely unchanged, for every delay and every failure pattern;
consequently a close that completed its teardown (timer cancel and
destroy not raising) makes every further close call, with any delay and
any failure pattern, return the state unchanged, so no second teardown
happens. -/
theorem close_noop_outside_shown :
    (∀ (s : SplashState) (d : ℚ) (f : Failures),
       s.isShown = false → closeSplash d f s = Except.ok s)
    ∧ (∀ (s t : SplashState) (f f2 : Failures) (d2 : ℚ),
       f.cancelFails = false → f.destroyFails = false →
       closeSplash 0 f s = Except.ok t → closeSplash d2 f2 t = Except.ok t) := by
  have part1 : ∀ (s : SplashState) (d : ℚ) (f : Failures),
      s.isShown = false → closeSplash d f s = Except.ok s := by
    intro s d f h
    unfold closeSplash
    rw [h]
    simp
  refine ⟨part1, ?_⟩
  intro s t f f2 d2 hc hd hrun
  by_cases hg : (!s.isShown || s.root.isNone) = true
  · have h1 : closeSplash 0 f s = Except.ok s := by
      unfold closeSplash; rw [if_pos hg]
    rw [h1] at hrun
    have h2 : s = t := by
      injection hrun
    subst h2
    unfold closeSplash; rw [if_pos hg]
  · have hg2 : (!s.isShown || s.root.isNone) = false := by
      cases hb : (!s.isShown || s.root.isNone) with
      | false => rfl
      | true => exact absurd hb hg
    have hparts := Bool.or_eq_false_iff.mp hg2
    have hroot : s.root = some () := option_unit_eq_some s.root hparts.2
    have h1 : closeSplash 0 f s = doClose f s := by
      unfold closeSplash
      rw [if_neg hg, if_neg (by norm_num : ¬ ((0:ℚ) > 0))]
    rw [h1, doClose_success_eq f s hroot hc hd] at hrun
    have h2 : ({ teardownChain f s with
        destroyed := true, root := none, isShown := false } : SplashState) = t := by
      injection hrun
    have hts : t.isShown = false := by rw [← h2]
    exact part1 t d2 f2 hts

/-- C5 witness: close with a delay on a freshly constructed, never shown
controller returns the state unchanged. -/
theorem close_noop_outside_shown_witness :
    closeSplash 3 noFailures (initState demoConfig)
      = Except.ok (initState demoConfig) :=
  (close_noop_outside_shown).1 (initState demoConfig) 3 noFailures rfl

/-- C6: update_message raises the lifecycle RuntimeError (distinct from
the toolkit TclError) whenever the controller is not shown, in particular
before show; and after a close whose teardown completed, the controller
is no longer shown and update_message fails with that same guarded
RuntimeError rather than an unhandled fault. -/
theorem update_message_state_guard :
    (∀ (s : SplashState) (txt : String) (app : Bool),
       s.isShown = false →
       updateMessage txt app s = Except.error PyError.runtimeError)
    ∧ PyError.runtimeError ≠ PyError.tclError
    ∧ (∀ (s t : SplashState) (f : Failures) (txt : String) (app : Bool),
       f.cancelFails = false → f.destroyFails = false →
       s.isShown = true → s.root = some () →
       closeSplash 0 f s = Except.ok t →
       t.isShown = false ∧
       updateMessage txt app t = Except.error PyError.runtimeError) := by
  have part1 : ∀ (s : SplashState) (txt : String) (app : Bool),
      s.isShown = false →
      updateMessage txt app s = Except.error PyError.runtimeError := by
    intro s txt app h
    unfold updateMessage
    rw [h]
    simp
  refine ⟨part1, by decide, ?_⟩
  intro s t f txt app hc hd hshown hroot hrun
  have hg : (!s.isShown || s.root.isNone) = false := by
    rw [hshown, hroot]; rfl
  have h1 : closeSplash 0 f s = doClose f s := by
    unfold closeSplash
    rw [if_neg (by simp [hg]), if_neg (by norm_num : ¬ ((0:ℚ) > 0))]
  rw [h1, doClose_success_eq f s hroot hc hd] at hrun
  have h2 : ({ teardownChain f s with
      destroyed := true, root := none, isShown := false } : SplashState) = t := by
    injection hrun
  have hts : t.isShown = false := by rw [← h2]
  exact ⟨hts, part1 t txt app hts⟩

/-- C6 witness: update_message on a constructed but never shown
controller raises the lifecycle RuntimeError. -/
theorem update_message_state_guard_witness :
    updateMessage ("working...") false (initState demoConfig)
      = Except.error PyError.runtimeError :=
  (update_message_state_guard).1 (initState demoConfig) ("working...") false rfl

/-- C7 (code evidence): on a controller constructed without a progress-bar
spec, the progressbar attribute is never assigned (the constructor only
annotates it and _create_window only assigns it when a spec exists), so
step_progressbar raises AttributeError at the very first guard both
before show and after show, instead of the documented warn-and-return
no-op. -/
theorem step_progressbar_without_spec (cfg : SplashConfig) (amt : ℚ)
    (dre : Bool) (h : cfg.progressbar = none) :
    stepProgressbar amt (initState cfg) = Except.error PyError.attributeError
    ∧ stepProgressbar amt (showSplash dre (initState cfg))
        = Except.error PyError.attributeError := by
  constructor
  · rfl
  · have hsh : showSplash dre (initState cfg)
        = { createWindow dre (initState cfg) with isShown := true } := by
      unfold showSplash
      rw [if_neg (by simp [initState])]
    rw [hsh]
    have hpb : ({ createWindow dre (initState cfg) with
        isShown := true } : SplashState).progressbar = none := by
      simp [createWindow, initState, h]
    unfold stepProgressbar
    rw [hpb]

/-- C7 witness: the concrete bar-less configuration, before and after
show. -/
theorem step_progressbar_without_spec_witness :
    demoConfig.progressbar = none
    ∧ stepProgressbar 1 (initState demoConfig)
        = Except.error PyError.attributeError
    ∧ stepProgressbar 1 (showSplash true (initState demoConfig))
        = Except.error PyError.attributeError :=
  ⟨rfl, (step_progressbar_without_spec demoConfig 1 true rfl).1,
    (step_progressbar_without_spec demoConfig 1 true rfl).2⟩

/-- A toolkit color oracle accepting every string. -/
def allColorsValid : String → Bool := fun _ => true

/-- A toolkit color oracle rejecting every string. -/
def noColorsValid : String → Bool := fun _ => false

/-- C8 (code evidence): update_color raises the lifecycle RuntimeError
when not shown, and an invalid color string falls back to the previous
color with a warning, as claimed; but a tuple of three ints each in
0..255 does not become a hex string: the f-string format specifier
02x-plus-space is invalid, so Python raises ValueError out of
update_color, and an out-of-range triple falls back silently with no
warning. -/
theorem update_color_rgb_triple_raises :
    updateColor allColorsValid (ColorInput.triple 255 10 2)
        (showSplash true (initState demoConfig))
      = Except.error PyError.valueError
    ∧ updateColor allColorsValid (ColorInput.str ("red")) (initState demoConfig)
      = Except.error PyError.runtimeError
    ∧ normalizeColorValue noColorsValid (ColorInput.str ("nope")) ("#00538F")
      = Except.ok (("#00538F"), true)
    ∧ normalizeColorValue allColorsValid (ColorInput.triple 300 0 0) ("#00538F")
      = Except.ok (("#00538F"), false) :=
  ⟨rfl, rfl, rfl, rfl⟩
